import Mathlib

/-!
Verification of the dependency-classification and artifact-aggregation engine
of `java/java.go` (Soong java module handling), shallowly embedded in Lean 4.

Go source constructs are translated as follows: Go structs become Lean
structures, Go interface type-assertions become `Option`-valued fields of the
embedded module records, `ctx.ModuleErrorf` / `ctx.PropertyErrorf` /
`ctx.AddMissingDependencies` become explicit state threading through a
`CtxState` record, and `android.Paths` become `List Path` with `Path = String`.
-/

namespace Soong

/-- A build path; paths are plain strings in this embedding. -/
abbrev Path := String

/-! ## Dependency tags (java.go lines 340-423) -/

/-- Embeds Go `dependencyTag` (java.go:340): name plus the runtime-linked and
toolchain flags.  Go struct equality compares all fields. -/
structure dependencyTag where
  name : String
  runtimeLinked : Bool := false
  toolchain : Bool := false
deriving DecidableEq, Repr

/-- A `blueprint.DependencyTag` value as used in java.go: either a plain
`dependencyTag` or a `usesLibraryDependencyTag` (java.go:370) which embeds a
`dependencyTag` plus an SDK version and an optional flag.  Go interface
equality distinguishes the two dynamic types, which the constructors mirror. -/
inductive DepTag where
  | base (t : dependencyTag)
  | usesLibrary (t : dependencyTag) (sdkVersion : Int) (optional : Bool)
deriving DecidableEq, Repr

/-- Modelled from the spec: the universal "any version" SDK bucket marker used
for non-versioned uses-library edges (`dexpreopt.AnySdkVersion`, whose
defining package is not part of the provided sources). -/
def AnySdkVersion : Int := 2147483647

/-- java.go:376 `makeUsesLibraryDependencyTag`. -/
def makeUsesLibraryDependencyTag (sdkVersion : Int) (optional : Bool) : DepTag :=
  DepTag.usesLibrary
    { name := "uses-library-" ++ toString sdkVersion, runtimeLinked := true }
    sdkVersion optional

def staticLibTag : DepTag := DepTag.base { name := "staticlib" }
def libTag : DepTag := DepTag.base { name := "javalib", runtimeLinked := true }
def sdkLibTag : DepTag := DepTag.base { name := "sdklib", runtimeLinked := true }
def java9LibTag : DepTag := DepTag.base { name := "java9lib", runtimeLinked := true }
def pluginTag : DepTag := DepTag.base { name := "plugin", toolchain := true }
def exportedPluginTag : DepTag := DepTag.base { name := "exported-plugin", toolchain := true }
def bootClasspathTag : DepTag := DepTag.base { name := "bootclasspath", runtimeLinked := true }
def systemModulesTag : DepTag := DepTag.base { name := "system modules", runtimeLinked := true }
def proguardRaiseTag : DepTag := DepTag.base { name := "proguard-raise" }
def jniLibTag : DepTag := DepTag.base { name := "jnilib", runtimeLinked := true }
def usesLibReqTag : DepTag := makeUsesLibraryDependencyTag AnySdkVersion false
def usesLibOptTag : DepTag := makeUsesLibraryDependencyTag AnySdkVersion true
def usesLibCompat28OptTag : DepTag := makeUsesLibraryDependencyTag 28 true
def usesLibCompat29ReqTag : DepTag := makeUsesLibraryDependencyTag 29 false
def usesLibCompat30OptTag : DepTag := makeUsesLibraryDependencyTag 30 true

/-- java.go:425 `IsLibDepTag`. -/
def IsLibDepTag (depTag : DepTag) : Bool :=
  depTag = libTag || depTag = sdkLibTag

/-- java.go:429 `IsStaticLibDepTag`. -/
def IsStaticLibDepTag (depTag : DepTag) : Bool :=
  depTag = staticLibTag

/-! ## Module context error state

java.go reports node-local problems through `ctx.ModuleErrorf`,
`ctx.PropertyErrorf` and `ctx.AddMissingDependencies`; the embedding threads
this record through the translated functions. -/

structure CtxState where
  moduleErrors : List String := []
  propertyErrors : List (String × String) := []
  missingDeps : List String := []
deriving DecidableEq, Repr

def CtxState.addModuleError (st : CtxState) (msg : String) : CtxState :=
  { st with moduleErrors := st.moduleErrors ++ [msg] }

def CtxState.addPropertyError (st : CtxState) (prop msg : String) : CtxState :=
  { st with propertyErrors := st.propertyErrors ++ [(prop, msg)] }

/-- Modelled from the spec: `ctx.AddMissingDependencies` (android package, not
in the provided sources) records missing-dependency markers against the node;
they become a hard module error only if missing dependencies are globally
disallowed, which happens outside this engine. -/
def CtxState.addMissingDependencies (st : CtxState) (deps : List String) : CtxState :=
  { st with missingDeps := st.missingDeps ++ deps }

/-! ## checkProducesJars (java.go:533-540) -/

/-- The Go `filepath.Ext` as used by `Path.Ext()`: the suffix beginning at the final
dot in the final path element, empty when there is none.  Operates on the
reversed character list, accumulating the scanned suffix. -/
def filepathExtAux : List Char → List Char → String
  | [], _ => ""
  | c :: rest, acc =>
    if c = '/' then ""
    else if c = '.' then String.mk (c :: acc)
    else filepathExtAux rest (c :: acc)

def filepathExt (p : Path) : String :=
  filepathExtAux p.data.reverse []

/-- java.go:533 `checkProducesJars`: for each file produced by a
source-file-producing dependency, report a module error when its extension is
not `.jar`.  `srcs` is `dep.Srcs()` and `depName` is
`ctx.OtherModuleName(dep)`. -/
def checkProducesJars (st : CtxState) (srcs : List Path) (depName : String) : CtxState :=
  srcs.foldl
    (fun st f =>
      if filepathExt f ≠ ".jar" then
        st.addModuleError
          ("genrule \"" ++ depName ++
            "\" must generate files ending with .jar to be used as a libs or static_libs dependency")
      else st)
    st

/-! ## javaVersion (java.go:557-628) -/

/-- java.go:557 `type javaVersion int` with the constants of java.go:559-567. -/
abbrev javaVersion := Int

def JAVA_VERSION_UNSUPPORTED : javaVersion := 0
def JAVA_VERSION_6 : javaVersion := 6
def JAVA_VERSION_7 : javaVersion := 7
def JAVA_VERSION_8 : javaVersion := 8
def JAVA_VERSION_9 : javaVersion := 9
def JAVA_VERSION_11 : javaVersion := 11
def JAVA_VERSION_17 : javaVersion := 17

/-- java.go:603 `usesJavaModules`: true when javac targeting this version uses
system modules instead of a bootclasspath. -/
def usesJavaModules (v : javaVersion) : Bool :=
  v ≥ 9

/-! ## Class-loader-context map

`dexpreopt.ClassLoaderContextMap` and its `AddContext` / `AddContextMap`
operations live in the dexpreopt package, which is not among the provided
sources; they are modelled from the spec (§3, §4.5): a mapping from
SDK-version bucket to an ordered sequence of context entries, each entry
carrying a library name, an optional jar path (absent meaning "invalid, will
fail at dexpreopt time"), an install path, and a recursive subtree. -/

/-- Modelled from the spec: a CLC context entry; the subtree field is the
bucket-indexed map of the entry's own dependencies. -/
inductive ContextEntry where
  | mk (libraryName : String) (jarPath : Option Path) (installPath : Option Path)
      (subtree : List (Int × List ContextEntry))

/-- Modelled from the spec: mapping from SDK-version bucket to the ordered
sequence of context entries recorded at that bucket. -/
abbrev ClassLoaderContextMap := List (Int × List ContextEntry)

def ContextEntry.libraryName : ContextEntry → String
  | .mk n _ _ _ => n

def ContextEntry.jarPath : ContextEntry → Option Path
  | .mk _ j _ _ => j

def ContextEntry.installPath : ContextEntry → Option Path
  | .mk _ _ i _ => i

def ContextEntry.subtree : ContextEntry → ClassLoaderContextMap
  | .mk _ _ _ s => s

/-- Append one entry to the sequence stored at bucket `b`, creating the bucket
at the end of the map when it does not exist yet. -/
def clcAppendAtBucket : ClassLoaderContextMap → Int → ContextEntry → ClassLoaderContextMap
  | [], b, e => [(b, [e])]
  | (b', es) :: rest, b, e =>
    if b' = b then (b', es ++ [e]) :: rest
    else (b', es) :: clcAppendAtBucket rest b e

/-- The ordered sequence of entries recorded at bucket `b`. -/
def clcEntriesAt (m : ClassLoaderContextMap) (b : Int) : List ContextEntry :=
  ((m.filter (fun p => p.1 = b)).map (fun p => p.2)).flatten

/-- Modelled from the spec: `ClassLoaderContextMap.AddContext` adds one new
node at the given bucket with the given library name, jar path, install path
and subtree (§4.5 case 1).  The `optional` flag of the edge is accepted as the
source call site passes it, but the spec's ContextEntry (§3) does not retain
it. -/
def clcAddContext (m : ClassLoaderContextMap) (sdkVer : Int) (lib : String)
    (_optional : Bool) (hostPath installPath : Option Path)
    (nestedClcMap : ClassLoaderContextMap) : ClassLoaderContextMap :=
  clcAppendAtBucket m sdkVer (ContextEntry.mk lib hostPath installPath nestedClcMap)

/-- Modelled from the spec: `ClassLoaderContextMap.AddContextMap` merges the
other map's entries directly into the current map at the same buckets,
flattening without adding a new node (§4.5 case 2).  The dependency name is
accepted as the source call site passes it. -/
def clcAddContextMap (m other : ClassLoaderContextMap) (_otherName : String) :
    ClassLoaderContextMap :=
  other.foldl (fun acc p => p.2.foldl (fun acc e => clcAppendAtBucket acc p.1 e) acc) m

/-! ## addCLCFromDep (java.go:2707-2755) -/

/-- The part of `UsesLibraryDependency` that `addCLCFromDep` reads from a
dependency module: `DexJarBuildPath().PathOrNil()`, `DexJarInstallPath()` and
`ClassLoaderContexts()`. -/
structure UsesLibInfo where
  dexJarBuildPath : Option Path
  dexJarInstallPath : Option Path
  classLoaderContexts : ClassLoaderContextMap

/-- A dependency module as seen by `addCLCFromDep`: its name, whether the Go
type assertions to `UsesLibraryDependency`, `SdkLibraryDependency` and
`ProvidesUsesLib` succeed, and the results of the asserted interfaces'
methods.  `providesUsesLib = some p` means the module implements
`ProvidesUsesLib` and `ProvidesUsesLib()` returns `p` (itself an optional
string). -/
structure ModuleCLCInfo where
  name : String
  usesLibraryDep : Option UsesLibInfo
  isSdkLibraryDependency : Bool := false
  sharedLibrary : Bool := false
  providesUsesLib : Option (Option String) := none

/-- java.go:2716 `depName := android.RemoveOptionalPrebuiltPrefix(...)`.  The
helper lives in the android package (not among the provided sources); it
strips the optional `prebuilt_` module-name marker. -/
def clcDepName (depModule : ModuleCLCInfo) : String :=
  if depModule.name.startsWith "prebuilt_" then depModule.name.drop 9
  else depModule.name

/-- java.go:2718-2726: the `sdkLib` computation of `addCLCFromDep`.  A shared
SDK library uses its own (prefix-stripped) name; otherwise a module
implementing `ProvidesUsesLib` supplies the declared name, which may itself be
nil. -/
def clcSdkLibName (depModule : ModuleCLCInfo) : Option String :=
  if depModule.isSdkLibraryDependency && depModule.sharedLibrary then
    some (clcDepName depModule)
  else
    match depModule.providesUsesLib with
    | some provided => provided
    | none => none

/-- java.go:2731: a uses-library tag whose sdkVersion is
`dexpreopt.AnySdkVersion` (a non-compatibility uses-library edge). -/
def isNonCompatUsesLibraryTag : DepTag → Bool
  | DepTag.usesLibrary _ v _ => v = AnySdkVersion
  | DepTag.base _ => false

/-- java.go:2749-2754: the tail of `addCLCFromDep`.  An SDK (or SDK-like)
library is added as a new node in the CLC tree with its own CLC as subtree;
otherwise the dependency's CLC is merged into the current map without adding
a node. -/
def addCLCTail (clcMap : ClassLoaderContextMap) (sdkLib : Option String)
    (dep : UsesLibInfo) (depName : String) : ClassLoaderContextMap :=
  match sdkLib with
  | some lib =>
    clcAddContext clcMap AnySdkVersion lib false dep.dexJarBuildPath
      dep.dexJarInstallPath dep.classLoaderContexts
  | none => clcAddContextMap clcMap dep.classLoaderContexts depName

/-- java.go:2708 `addCLCFromDep`: add the class loader context of a given
dependency to the current CLC.  The source reports no errors here, which the
unchanged `CtxState` in the result reflects. -/
def addCLCFromDep (st : CtxState) (depModule : ModuleCLCInfo) (depTag : DepTag)
    (clcMap : ClassLoaderContextMap) : CtxState × ClassLoaderContextMap :=
  match depModule.usesLibraryDep with
  | none => (st, clcMap)
  | some dep =>
    let depName := clcDepName depModule
    let sdkLib := clcSdkLibName depModule
    if IsLibDepTag depTag then
      -- Ok, propagate <uses-library> through non-static library dependencies.
      (st, addCLCTail clcMap sdkLib dep depName)
    else if isNonCompatUsesLibraryTag depTag then
      -- Ok, propagate <uses-library> through non-compatibility <uses-library>
      -- dependencies.
      (st, addCLCTail clcMap sdkLib dep depName)
    else if depTag = staticLibTag then
      -- Propagate <uses-library> through static library dependencies, unless
      -- it is a component library (such as stubs).
      if sdkLib.isSome then (st, clcMap)
      else (st, addCLCTail clcMap sdkLib dep depName)
    else
      -- Don't propagate <uses-library> for other dependency tags.
      (st, clcMap)

/-! ## Import.GenerateAndroidBuildActions classpath aggregation
(java.go:2171-2195) -/

/-- The part of the published `JavaInfo` provider (java.go:247) that the
`Import` dependency walk reads: the header jars.  The remaining `JavaInfo`
fields are not consulted by the embedded fragment. -/
structure JavaInfoRec where
  headerJars : List Path
deriving DecidableEq, Repr, Inhabited

/-- java.go:2171 `javaBuilderFlags` fields accumulated by the dependency
walk. -/
structure javaBuilderFlags where
  bootClasspath : List Path := []
  classpath : List Path := []
  dexClasspath : List Path := []
deriving DecidableEq, Repr, Inhabited

/-- A module visited by `ctx.VisitDirectDeps` in
`Import.GenerateAndroidBuildActions`: its dependency tag, its `JavaInfo`
provider when published, the result of `SdkHeaderJars` when the module is an
`SdkLibraryDependency`, and the data `addCLCFromDep` reads from it. -/
structure ImportVisitedDep where
  tag : DepTag
  javaInfo : Option JavaInfoRec
  sdkHeaderJars : Option (List Path)
  clcInfo : ModuleCLCInfo

/-- java.go:2174-2195: the body of the `VisitDirectDeps` closure in
`Import.GenerateAndroidBuildActions`: the classpath switch on the dependency
tag followed by the `addCLCFromDep` call. -/
def importVisitDirectDep (d : ImportVisitedDep) (flags : javaBuilderFlags)
    (clcMap : ClassLoaderContextMap) (st : CtxState) :
    javaBuilderFlags × ClassLoaderContextMap × CtxState :=
  let flags :=
    match d.javaInfo with
    | some dep =>
      if d.tag = libTag ∨ d.tag = sdkLibTag then
        { flags with classpath := flags.classpath ++ dep.headerJars,
                     dexClasspath := flags.dexClasspath ++ dep.headerJars }
      else if d.tag = staticLibTag then
        { flags with classpath := flags.classpath ++ dep.headerJars }
      else if d.tag = bootClasspathTag then
        { flags with bootClasspath := flags.bootClasspath ++ dep.headerJars }
      else flags
    | none =>
      match d.sdkHeaderJars with
      | some jars =>
        if d.tag = libTag ∨ d.tag = sdkLibTag then
          { flags with classpath := flags.classpath ++ jars }
        else flags
      | none => flags
  let (st, clcMap) := addCLCFromDep st d.clcInfo d.tag clcMap
  (flags, clcMap, st)

/-- The full `VisitDirectDeps` walk, in visiting order. -/
def importVisitDirectDeps (deps : List ImportVisitedDep) (flags : javaBuilderFlags)
    (clcMap : ClassLoaderContextMap) (st : CtxState) :
    javaBuilderFlags × ClassLoaderContextMap × CtxState :=
  match deps with
  | [] => (flags, clcMap, st)
  | d :: rest =>
    let (flags, clcMap, st) := importVisitDirectDep d flags clcMap st
    importVisitDirectDeps rest flags clcMap st

/-! ## sdkDep and the Compile_dex SDK step (java.go:433-464, 2236-2243) -/

/-- java.go:433 `sdkDep`: the descriptor produced by `decodeSdkDep` (whose
body lives outside the provided sources). -/
structure sdkDep where
  useModule : Bool := false
  useFiles : Bool := false
  invalidVersion : Bool := false
  bootclasspath : List String := []
  systemModules : String := ""
  classpath : List String := []
  java9Classpath : List String := []
  frameworkResModule : String := ""
  jars : List Path := []
  noStandardLibs : Bool := false
  noFrameworksLibs : Bool := false
deriving DecidableEq, Repr, Inhabited

/-- java.go:458 `hasStandardLibs`. -/
def sdkDep.hasStandardLibs (s : sdkDep) : Bool :=
  !s.noStandardLibs

/-- java.go:462 `hasFrameworkLibs`. -/
def sdkDep.hasFrameworkLibs (s : sdkDep) : Bool :=
  !s.noStandardLibs && !s.noFrameworksLibs

/-- java.go:2236-2243: the SDK-descriptor step of the device `Compile_dex`
branch of `Import.GenerateAndroidBuildActions`: an invalid version records
missing-dependency markers for the bootclasspath and java9Classpath module
lists; otherwise file-based resolution appends the SDK jars to the compile
classpath. -/
def importCompileDexSdkStep (sd : sdkDep) (flags : javaBuilderFlags)
    (st : CtxState) : javaBuilderFlags × CtxState :=
  if sd.invalidVersion then
    (flags, (st.addMissingDependencies sd.bootclasspath).addMissingDependencies
      sd.java9Classpath)
  else if sd.useFiles then
    ({ flags with classpath := flags.classpath ++ sd.jars }, st)
  else
    (flags, st)

/-! ## DexImport.GenerateAndroidBuildActions jar-count check
(java.go:2524-2527) -/

/-- java.go:2524-2527: the property check opening
`DexImport.GenerateAndroidBuildActions`: anything other than exactly one
entry in `Jars` reports a property error on `jars`. -/
def dexImportJarsCheck (jars : List String) (st : CtxState) : CtxState :=
  if jars.length ≠ 1 then
    st.addPropertyError "jars" "exactly one jar must be provided"
  else st

/-! ## Proguard keep-rule aggregation

`ProguardSpecInfo` (java.go:229-242) is published by
`Library.GenerateAndroidBuildActions` (java.go:741-743) through
`collectProguardSpecInfo`, whose body is not among the provided sources; the
collector is modelled from the spec (§4.4): keep-rule files are aggregated
from all static deps unconditionally including their transitive closure, and
from shared deps only through the unconditionally-exported subset that a
dependency publishes when its own `Export_proguard_flags_files` is true. -/

/-- java.go:229 `ProguardSpecInfo`, with the depsets embedded as ordered
lists. -/
structure ProguardSpecInfo where
  Export_proguard_flags_files : Bool := false
  ProguardFlagsFiles : List Path := []
  UnconditionallyExportedProguardFlags : List Path := []
deriving DecidableEq, Repr, Inhabited

/-- A direct dependency as seen by the proguard collector: its tag and its
published `ProguardSpecInfo`, when any. -/
structure ProguardDep where
  tag : DepTag
  info : Option ProguardSpecInfo

/-- Modelled from the spec: `collectProguardSpecInfo` (§4.4).  Every
dependency's unconditionally-exported subset is folded into both outputs;
static dependencies additionally contribute their full transitive
`ProguardFlagsFiles` set; the node's own files are placed first and enter the
unconditional subset only when the node itself sets
`Export_proguard_flags_files`. -/
def collectProguardSpecInfo (ownFlagsFiles : List Path) (exportFlag : Bool)
    (deps : List ProguardDep) : ProguardSpecInfo :=
  let transitiveFlags :=
    deps.foldl
      (fun acc d =>
        match d.info with
        | none => acc
        | some i =>
          let acc := acc ++ i.UnconditionallyExportedProguardFlags
          if d.tag = staticLibTag then acc ++ i.ProguardFlagsFiles else acc)
      []
  let transitiveUncond :=
    deps.foldl
      (fun acc d =>
        match d.info with
        | none => acc
        | some i => acc ++ i.UnconditionallyExportedProguardFlags)
      []
  { Export_proguard_flags_files := exportFlag
    ProguardFlagsFiles := ownFlagsFiles ++ transitiveFlags
    UnconditionallyExportedProguardFlags :=
      (if exportFlag then ownFlagsFiles else []) ++ transitiveUncond }

/-! ## Scheduling model (spec §5)

Nodes are evaluated by the external graph engine in some order subject only to
topological validity: a node runs after all of its direct dependencies have
published their outputs.  The per-node computation is the embedded
`Import.GenerateAndroidBuildActions` dependency walk
(`importVisitDirectDeps`, which includes `addCLCFromDep`).  Nodes are indexed
by `Fin N`, and acyclicity is the external invariant that every edge points to
a lower index. -/

/-- The declaration of one node: its fixed attributes and its direct edges in
declaration order.  Edges point at lower-indexed nodes. -/
structure NodeDecl (N : Nat) where
  name : String := ""
  ownHeaderJar : Path := ""
  isSdkLibraryDependency : Bool := false
  sharedLibrary : Bool := false
  providesUsesLib : Option (Option String) := none
  dexJarBuildPath : Option Path := none
  dexJarInstallPath : Option Path := none
  edges : List (DepTag × Fin N) := []

/-- The immutable record a node publishes once evaluated: its `JavaInfo`
header jars, the aggregated builder flags and its class-loader-context map. -/
structure NodeOutput where
  javaInfo : JavaInfoRec := { headerJars := [] }
  flags : javaBuilderFlags := {}
  clc : ClassLoaderContextMap := []
deriving Inhabited

/-- The dependency record `Import.GenerateAndroidBuildActions` sees for one
direct edge, assembled from the target node's declaration and published
output. -/
def visitedDepOf {N : Nat} (tag : DepTag) (dd : NodeDecl N) (out : NodeOutput) :
    ImportVisitedDep :=
  { tag := tag
    javaInfo := some out.javaInfo
    sdkHeaderJars := none
    clcInfo :=
      { name := dd.name
        usesLibraryDep := some
          { dexJarBuildPath := dd.dexJarBuildPath
            dexJarInstallPath := dd.dexJarInstallPath
            classLoaderContexts := out.clc }
        isSdkLibraryDependency := dd.isSdkLibraryDependency
        sharedLibrary := dd.sharedLibrary
        providesUsesLib := dd.providesUsesLib } }

/-- One node's computation: a pure function of its own declaration and of its
direct dependencies' published outputs, running the embedded dependency
walk. -/
def nodeCompute {N : Nat} (d : NodeDecl N)
    (depInputs : List (DepTag × NodeDecl N × NodeOutput)) : NodeOutput :=
  let visited := depInputs.map (fun e => visitedDepOf e.1 e.2.1 e.2.2)
  let (flags, clcMap, _) := importVisitDirectDeps visited {} [] {}
  { javaInfo := { headerJars := [d.ownHeaderJar] }
    flags := flags
    clc := clcMap }

/-- Reference evaluation of the graph by fuel-bounded recursion; with
acyclicity (every edge decreasing) any fuel above the node index gives the
fixed point. -/
def evalFuel {N : Nat} (decl : Fin N → NodeDecl N) : Nat → Fin N → NodeOutput
  | 0, _ => default
  | fuel + 1, n =>
    nodeCompute (decl n)
      ((decl n).edges.map (fun e => (e.1, decl e.2, evalFuel decl fuel e.2)))

/-- The canonical published output of a node. -/
def evalNode {N : Nat} (decl : Fin N → NodeDecl N) (n : Fin N) : NodeOutput :=
  evalFuel decl (n.val + 1) n

/-- Acyclicity as guaranteed by the external graph engine: every edge points
to a strictly lower index. -/
def graphAcyclic {N : Nat} (decl : Fin N → NodeDecl N) : Prop :=
  ∀ n : Fin N, ∀ e ∈ (decl n).edges, (e.2 : Fin N).val < n.val

instance {N : Nat} (decl : Fin N → NodeDecl N) : Decidable (graphAcyclic decl) := by
  unfold graphAcyclic
  infer_instance

/-- One scheduler step: evaluate node `n` against the current store of
published outputs and publish its result. -/
def schedStep {N : Nat} (decl : Fin N → NodeDecl N)
    (store : Fin N → Option NodeOutput) (n : Fin N) : Fin N → Option NodeOutput :=
  fun m =>
    if m = n then
      some (nodeCompute (decl n)
        ((decl n).edges.map (fun e => (e.1, decl e.2, (store e.2).getD default))))
    else store m

/-- Run a schedule (a list of node indices) left to right. -/
def runSched {N : Nat} (decl : Fin N → NodeDecl N) :
    List (Fin N) → (Fin N → Option NodeOutput) → (Fin N → Option NodeOutput)
  | [], store => store
  | n :: rest, store => runSched decl rest (schedStep decl store n)

/-- A schedule is topologically valid relative to the already-processed nodes
`done`: each node runs only after all of its direct dependencies. -/
def schedValidAux {N : Nat} (decl : Fin N → NodeDecl N) :
    List (Fin N) → List (Fin N) → Bool
  | _, [] => true
  | done, n :: rest =>
    (decl n).edges.all (fun e => done.contains e.2) &&
      schedValidAux decl (n :: done) rest

/-- A topologically valid schedule starting from an empty store. -/
def schedValid {N : Nat} (decl : Fin N → NodeDecl N) (s : List (Fin N)) : Bool :=
  schedValidAux decl [] s

/-- The buckets of a CLC map are pairwise distinct; every map built by the
embedded operations from the empty map keeps this shape. -/
def clcBucketsNodup (m : ClassLoaderContextMap) : Prop :=
  (m.map Prod.fst).Nodup

/-! ## Concrete sample modules used to instantiate the theorems -/

/-- A shared SDK library dependency: publishes a dex jar, an install path and
an empty CLC of its own. -/
def sampleSharedSdkModule : ModuleCLCInfo :=
  { name := "libS"
    usesLibraryDep := some
      { dexJarBuildPath := some "out/soong/libS.jar"
        dexJarInstallPath := some "/system/framework/libS.jar"
        classLoaderContexts := [] }
    isSdkLibraryDependency := true
    sharedLibrary := true }

/-- A plain static component library whose own CLC already carries one
uses-library obligation. -/
def sampleStaticModule : ModuleCLCInfo :=
  { name := "libC"
    usesLibraryDep := some
      { dexJarBuildPath := some "out/soong/libC.jar"
        dexJarInstallPath := some "/system/framework/libC.jar"
        classLoaderContexts :=
          [(AnySdkVersion, [ContextEntry.mk "libT" none none []])] } }

/-- A required uses-library dependency that declares an SDK-surface identity
through `provides_uses_lib` but publishes no dex jar path. -/
def sampleMissingJarModule : ModuleCLCInfo :=
  { name := "libU"
    usesLibraryDep := some
      { dexJarBuildPath := none
        dexJarInstallPath := some "/system/framework/libU.jar"
        classLoaderContexts := [] }
    providesUsesLib := some (some "libU") }

/-- A three-node dependency graph: node 2 consumes node 0 statically and
node 1 (a shared SDK library) through a javalib edge; nodes 0 and 1 are
independent of each other, so they may be evaluated in either order. -/
def sampleGraphDecl : Fin 3 → NodeDecl 3 := fun n =>
  if n = 2 then
    { name := "app", ownHeaderJar := "out/app-header.jar",
      edges := [(staticLibTag, 0), (libTag, 1)] }
  else if n = 1 then
    { name := "libS", ownHeaderJar := "out/libS-header.jar",
      dexJarBuildPath := some "out/libS.jar",
      dexJarInstallPath := some "/system/framework/libS.jar",
      isSdkLibraryDependency := true, sharedLibrary := true }
  else
    { name := "libB", ownHeaderJar := "out/libB-header.jar" }

/-! # Theorems -/

/-! ## C8: language level 9 is the system-modules cutoff -/

/-- C8: `usesJavaModules` returns true exactly for language levels 9 and
above, the levels that use system modules plus the java9Classpath module set
instead of the legacy bootclasspath. -/
theorem usesJavaModules_iff_ge_nine (v : javaVersion) :
    usesJavaModules v = true ↔ 9 ≤ v := by
  simp [usesJavaModules]

/-- C8 witness: language level 9 uses system modules, language level 8 does
not. -/
theorem usesJavaModules_iff_ge_nine_witness :
    usesJavaModules JAVA_VERSION_9 = true ∧
    ¬usesJavaModules JAVA_VERSION_8 = true := by
  constructor
  · exact (usesJavaModules_iff_ge_nine JAVA_VERSION_9).mpr (by decide)
  · intro h
    exact absurd ((usesJavaModules_iff_ge_nine JAVA_VERSION_8).mp h) (by decide)

/-! ## C10: dex_import requires exactly one jar -/

/-- C10: `DexImport.GenerateAndroidBuildActions` reports a property error on
the `jars` property iff the number of declared jars differs from one; with
exactly one jar no error is reported, otherwise the error "exactly one jar
must be provided" is appended. -/
theorem dexImportJarsCheck_iff (jars : List String) (st : CtxState) :
    ((dexImportJarsCheck jars st).propertyErrors = st.propertyErrors ↔
      jars.length = 1) ∧
    (jars.length ≠ 1 →
      (dexImportJarsCheck jars st).propertyErrors =
        st.propertyErrors ++ [("jars", "exactly one jar must be provided")]) := by
  constructor
  · by_cases h : jars.length = 1 <;>
      simp [dexImportJarsCheck, h, CtxState.addPropertyError]
  · intro h
    simp [dexImportJarsCheck, h, CtxState.addPropertyError]

/-- C10 witness: one jar passes the check, an empty jar list reports the
property error. -/
theorem dexImportJarsCheck_iff_witness :
    (dexImportJarsCheck ["prebuilt.jar"] {}).propertyErrors =
      ({} : CtxState).propertyErrors ∧
    (dexImportJarsCheck [] {}).propertyErrors =
      ({} : CtxState).propertyErrors ++
        [("jars", "exactly one jar must be provided")] := by
  constructor
  · exact (dexImportJarsCheck_iff ["prebuilt.jar"] {}).1.mpr (by decide)
  · exact (dexImportJarsCheck_iff [] {}).2 (by decide)

/-! ## C7: checkProducesJars validates the produced artifact type -/

/-- The errors appended by `checkProducesJars` are empty exactly when every
produced file ends in `.jar`. -/
theorem checkProducesJars_errors (srcs : List Path) (st : CtxState) (n : String) :
    ∃ l, (checkProducesJars st srcs n).moduleErrors = st.moduleErrors ++ l ∧
      (l = [] ↔ ∀ f ∈ srcs, filepathExt f = ".jar") := by
  induction srcs generalizing st with
  | nil => exact ⟨[], by simp [checkProducesJars]⟩
  | cons f rest ih =>
    by_cases hf : filepathExt f = ".jar"
    · obtain ⟨l, hl, hiff⟩ := ih st
      refine ⟨l, ?_, ?_⟩
      · simpa [checkProducesJars, hf] using hl
      · simp [hiff, hf]
    · obtain ⟨l, hl, _⟩ :=
        ih (st.addModuleError
          ("genrule \"" ++ n ++
            "\" must generate files ending with .jar to be used as a libs or static_libs dependency"))
      refine ⟨("genrule \"" ++ n ++
          "\" must generate files ending with .jar to be used as a libs or static_libs dependency") :: l,
        ?_, ?_⟩
      · simp only [checkProducesJars, List.foldl_cons, if_pos hf] at *
        simpa [CtxState.addModuleError, checkProducesJars] using hl
      · simp [hf]

/-- C7: `checkProducesJars` reports a module error iff at least one file
produced by the dependency has an extension other than `.jar`; when every
produced file ends in `.jar` no error is reported. -/
theorem checkProducesJars_iff (srcs : List Path) (st : CtxState) (n : String) :
    (checkProducesJars st srcs n).moduleErrors = st.moduleErrors ↔
      ∀ f ∈ srcs, filepathExt f = ".jar" := by
  obtain ⟨l, hl, hiff⟩ := checkProducesJars_errors srcs st n
  rw [hl, ← hiff]
  constructor
  · intro h
    have := congrArg List.length h
    simp at this
    exact this
  · intro h
    simp [h]

/-- C7 witness: a dependency producing only `.jar` files passes, one
producing a `.so` file reports a module error. -/
theorem checkProducesJars_iff_witness :
    (checkProducesJars {} ["out/a.jar"] "gen").moduleErrors =
      ({} : CtxState).moduleErrors ∧
    ¬(checkProducesJars {} ["out/b.so"] "gen").moduleErrors =
      ({} : CtxState).moduleErrors := by
  constructor
  · exact (checkProducesJars_iff ["out/a.jar"] {} "gen").mpr (by decide)
  · intro h
    have h2 := (checkProducesJars_iff ["out/b.so"] {} "gen").mp h
    have h3 := h2 "out/b.so" (by decide)
    revert h3
    decide

/-! ## C6: invalid SDK version on a dex-compiled java_import -/

/-- C6: when the resolved SDK descriptor carries `invalidVersion`, the device
`Compile_dex` branch of `Import.GenerateAndroidBuildActions` records
missing-dependency markers for the descriptor's bootclasspath and
java9Classpath module lists, adds no SDK jars to the classpath, and raises no
module or property error. -/
theorem importCompileDexSdkStep_invalidVersion (sd : sdkDep)
    (flags : javaBuilderFlags) (st : CtxState) (h : sd.invalidVersion = true) :
    (importCompileDexSdkStep sd flags st).1 = flags ∧
    (importCompileDexSdkStep sd flags st).2.missingDeps =
      st.missingDeps ++ sd.bootclasspath ++ sd.java9Classpath ∧
    (importCompileDexSdkStep sd flags st).2.moduleErrors = st.moduleErrors ∧
    (importCompileDexSdkStep sd flags st).2.propertyErrors = st.propertyErrors := by
  simp [importCompileDexSdkStep, h, CtxState.addMissingDependencies]

/-- C6 witness: a concrete invalid SDK descriptor records both module lists as
missing dependencies and leaves classpath and errors untouched. -/
theorem importCompileDexSdkStep_invalidVersion_witness :
    ({ invalidVersion := true, bootclasspath := ["core.current.stubs"],
       java9Classpath := ["core-for-system-modules"] } : sdkDep).invalidVersion = true ∧
    (importCompileDexSdkStep
        { invalidVersion := true, bootclasspath := ["core.current.stubs"],
          java9Classpath := ["core-for-system-modules"] } {} {}).1 = {} ∧
    (importCompileDexSdkStep
        { invalidVersion := true, bootclasspath := ["core.current.stubs"],
          java9Classpath := ["core-for-system-modules"] } {} {}).2.missingDeps =
      [] ++ ["core.current.stubs"] ++ ["core-for-system-modules"] ∧
    (importCompileDexSdkStep
        { invalidVersion := true, bootclasspath := ["core.current.stubs"],
          java9Classpath := ["core-for-system-modules"] } {} {}).2.moduleErrors = [] ∧
    (importCompileDexSdkStep
        { invalidVersion := true, bootclasspath := ["core.current.stubs"],
          java9Classpath := ["core-for-system-modules"] } {} {}).2.propertyErrors = [] := by
  refine ⟨rfl, ?_⟩
  have h := importCompileDexSdkStep_invalidVersion
    { invalidVersion := true, bootclasspath := ["core.current.stubs"],
      java9Classpath := ["core-for-system-modules"] } {} {} rfl
  exact ⟨h.1, h.2.1, h.2.2.1, h.2.2.2⟩

/-! ## C1: which dependency kinds reach the dex classpath

java.go:2178-2186 appends a `libTag`/`sdkLibTag` dependency's header jars to
both `classpath` and `dexClasspath`, and a `staticLibTag` dependency's header
jars to `classpath` only — the deps comment (java.go:505-508) states the dex
classpath holds header jars for all non-static dependencies, static
dependencies having already been combined into the program jar. -/

/-- C1 counterexample: a staticlib-tagged dependency with header jar
`libB.jar` reaches the compile classpath but not the dex classpath, refuting
the claim that a Static dependency's header jars are appended to both. -/
theorem importVisit_static_not_on_dexClasspath :
    (importVisitDirectDep
        { tag := staticLibTag, javaInfo := some { headerJars := ["libB.jar"] },
          sdkHeaderJars := none,
          clcInfo := { name := "libB", usesLibraryDep := none } }
        {} [] {}).1.classpath = ["libB.jar"] ∧
    (importVisitDirectDep
        { tag := staticLibTag, javaInfo := some { headerJars := ["libB.jar"] },
          sdkHeaderJars := none,
          clcInfo := { name := "libB", usesLibraryDep := none } }
        {} [] {}).1.dexClasspath ≠ ["libB.jar"] := by
  constructor
  · rfl
  · decide

/-- C1 (amended): for a module aggregating its direct dependencies' published
`JavaInfo`, a Shared/SDK (javalib- or sdklib-tagged) dependency's header jars
are appended to both the compile classpath and the dex classpath, while a
Static (staticlib-tagged) dependency's header jars are appended to the
compile classpath only. -/
theorem importVisit_classpath_by_tag (d : ImportVisitedDep)
    (dep : JavaInfoRec) (flags : javaBuilderFlags)
    (clcMap : ClassLoaderContextMap) (st : CtxState)
    (h : d.javaInfo = some dep) :
    (d.tag = staticLibTag →
      (importVisitDirectDep d flags clcMap st).1.classpath =
        flags.classpath ++ dep.headerJars ∧
      (importVisitDirectDep d flags clcMap st).1.dexClasspath =
        flags.dexClasspath) ∧
    (d.tag = libTag ∨ d.tag = sdkLibTag →
      (importVisitDirectDep d flags clcMap st).1.classpath =
        flags.classpath ++ dep.headerJars ∧
      (importVisitDirectDep d flags clcMap st).1.dexClasspath =
        flags.dexClasspath ++ dep.headerJars) := by
  constructor
  · intro ht
    have h1 : ¬(staticLibTag = libTag ∨ staticLibTag = sdkLibTag) := by decide
    simp [importVisitDirectDep, h, ht, h1]
  · intro ht
    simp [importVisitDirectDep, h, ht]

/-- C1 witness: the amended theorem applied at a concrete staticlib edge and a
concrete javalib edge. -/
theorem importVisit_classpath_by_tag_witness :
    (importVisitDirectDep
        { tag := staticLibTag, javaInfo := some { headerJars := ["libB.jar"] },
          sdkHeaderJars := none,
          clcInfo := { name := "libB", usesLibraryDep := none } }
        {} [] {}).1.dexClasspath = [] ∧
    (importVisitDirectDep
        { tag := libTag, javaInfo := some { headerJars := ["libS.jar"] },
          sdkHeaderJars := none,
          clcInfo := { name := "libS", usesLibraryDep := none } }
        {} [] {}).1.dexClasspath = [] ++ ["libS.jar"] := by
  constructor
  · exact ((importVisit_classpath_by_tag
      { tag := staticLibTag, javaInfo := some { headerJars := ["libB.jar"] },
        sdkHeaderJars := none,
        clcInfo := { name := "libB", usesLibraryDep := none } }
      { headerJars := ["libB.jar"] } {} [] {} rfl).1 rfl).2
  · exact ((importVisit_classpath_by_tag
      { tag := libTag, javaInfo := some { headerJars := ["libS.jar"] },
        sdkHeaderJars := none,
        clcInfo := { name := "libS", usesLibraryDep := none } }
      { headerJars := ["libS.jar"] } {} [] {} rfl).2 (Or.inl rfl)).2

/-! ## CLC map lemmas -/

theorem clcEntriesAt_nil (b : Int) : clcEntriesAt [] b = [] := rfl

theorem clcEntriesAt_cons (k : Int) (es : List ContextEntry)
    (rest : ClassLoaderContextMap) (b : Int) :
    clcEntriesAt ((k, es) :: rest) b =
      (if k = b then es else []) ++ clcEntriesAt rest b := by
  by_cases h : k = b <;> simp [clcEntriesAt, List.filter_cons, h]

theorem clcEntriesAt_eq_nil_of_not_mem (m : ClassLoaderContextMap) (b : Int)
    (h : b ∉ m.map Prod.fst) : clcEntriesAt m b = [] := by
  induction m with
  | nil => rfl
  | cons p rest ih =>
    obtain ⟨k, es⟩ := p
    simp only [List.map_cons, List.mem_cons] at h
    push_neg at h
    rw [clcEntriesAt_cons, if_neg (fun hk => h.1 hk.symm), ih h.2]
    rfl

theorem clcAppendAtBucket_keys (m : ClassLoaderContextMap) (b : Int)
    (e : ContextEntry) :
    (clcAppendAtBucket m b e).map Prod.fst =
      if b ∈ m.map Prod.fst then m.map Prod.fst else m.map Prod.fst ++ [b] := by
  induction m with
  | nil => simp [clcAppendAtBucket]
  | cons p rest ih =>
    obtain ⟨k, es⟩ := p
    by_cases hk : k = b
    · simp [clcAppendAtBucket, hk]
    · have : ¬b = k := fun h => hk h.symm
      simp only [clcAppendAtBucket, if_neg hk, List.map_cons, List.mem_cons, this,
        false_or, ih]
      by_cases hb : b ∈ rest.map Prod.fst <;> simp [hb]

theorem clcAppendAtBucket_nodup (m : ClassLoaderContextMap) (b : Int)
    (e : ContextEntry) (h : clcBucketsNodup m) :
    clcBucketsNodup (clcAppendAtBucket m b e) := by
  unfold clcBucketsNodup at *
  rw [clcAppendAtBucket_keys]
  by_cases hb : b ∈ m.map Prod.fst <;> simp [hb, List.nodup_append, h]

theorem clcEntriesAt_appendAtBucket (m : ClassLoaderContextMap) (b : Int)
    (e : ContextEntry) (b' : Int) (h : clcBucketsNodup m) :
    clcEntriesAt (clcAppendAtBucket m b e) b' =
      clcEntriesAt m b' ++ (if b' = b then [e] else []) := by
  induction m with
  | nil =>
    by_cases hb : b' = b
    · subst hb
      simp [clcAppendAtBucket, clcEntriesAt_cons, clcEntriesAt_nil]
    · have : ¬b = b' := fun hh => hb hh.symm
      simp [clcAppendAtBucket, clcEntriesAt_cons, clcEntriesAt_nil, this, hb]
  | cons p rest ih =>
    obtain ⟨k, es⟩ := p
    have hk_not : k ∉ rest.map Prod.fst := by
      have := h
      unfold clcBucketsNodup at this
      simp only [List.map_cons, List.nodup_cons] at this
      exact this.1
    have hrest : clcBucketsNodup rest := by
      have := h
      unfold clcBucketsNodup at this
      simp only [List.map_cons, List.nodup_cons] at this
      exact this.2
    by_cases hk : k = b
    · subst hk
      rw [show clcAppendAtBucket ((k, es) :: rest) k e =
            (k, es ++ [e]) :: rest from by simp [clcAppendAtBucket]]
      rw [clcEntriesAt_cons, clcEntriesAt_cons]
      by_cases hb' : b' = k
      · subst hb'
        rw [clcEntriesAt_eq_nil_of_not_mem rest b' hk_not]
        simp
      · have : ¬k = b' := fun hh => hb' hh.symm
        simp [this, hb']
    · rw [show clcAppendAtBucket ((k, es) :: rest) b e =
            (k, es) :: clcAppendAtBucket rest b e from by simp [clcAppendAtBucket, hk]]
      rw [clcEntriesAt_cons, clcEntriesAt_cons, ih hrest, List.append_assoc]

theorem clcEntriesAt_foldl_append (es : List ContextEntry)
    (m : ClassLoaderContextMap) (k b : Int) (h : clcBucketsNodup m) :
    clcEntriesAt (es.foldl (fun acc e => clcAppendAtBucket acc k e) m) b =
      clcEntriesAt m b ++ (if b = k then es else []) ∧
    clcBucketsNodup (es.foldl (fun acc e => clcAppendAtBucket acc k e) m) := by
  induction es generalizing m with
  | nil => exact ⟨by simp, h⟩
  | cons e rest ih =>
    have h' := clcAppendAtBucket_nodup m k e h
    obtain ⟨h1, h2⟩ := ih (clcAppendAtBucket m k e) h'
    refine ⟨?_, h2⟩
    rw [List.foldl_cons] at *
    rw [h1, clcEntriesAt_appendAtBucket m k e b h]
    by_cases hb : b = k <;> simp [hb]

theorem clcEntriesAt_addContextMap (other m : ClassLoaderContextMap)
    (n : String) (b : Int) (h : clcBucketsNodup m) :
    clcEntriesAt (clcAddContextMap m other n) b =
      clcEntriesAt m b ++ clcEntriesAt other b ∧
    clcBucketsNodup (clcAddContextMap m other n) := by
  induction other generalizing m with
  | nil => exact ⟨by simp [clcAddContextMap, clcEntriesAt_nil], by simpa [clcAddContextMap] using h⟩
  | cons p rest ih =>
    obtain ⟨k, es⟩ := p
    have hstep := clcEntriesAt_foldl_append es m k b h
    have hunf : clcAddContextMap m ((k, es) :: rest) n =
        clcAddContextMap (es.foldl (fun acc e => clcAppendAtBucket acc k e) m) rest n := by
      simp [clcAddContextMap]
    obtain ⟨h1, h2⟩ := ih (es.foldl (fun acc e => clcAppendAtBucket acc k e) m) hstep.2
    refine ⟨?_, by rw [hunf]; exact h2⟩
    rw [hunf, h1, hstep.1, clcEntriesAt_cons, List.append_assoc]
    congr 2
    by_cases hb : b = k
    · simp [hb]
    · have : ¬k = b := fun hh => hb hh.symm
      simp [hb, this]

/-- A tag satisfying the non-compatibility uses-library test is never a
javalib/sdklib tag. -/
theorem isLibDepTag_false_of_usesLibrary (tag : DepTag)
    (h : isNonCompatUsesLibraryTag tag = true) : IsLibDepTag tag = false := by
  cases tag with
  | base t => simp [isNonCompatUsesLibraryTag] at h
  | usesLibrary t v o => simp [IsLibDepTag, libTag, sdkLibTag]

/-- The function `addCLCFromDep` reduces to the node-adding tail when the edge is a
javalib/sdklib edge or a non-compatibility uses-library edge. -/
theorem addCLCFromDep_eq_addContext (st : CtxState)
    (m : ModuleCLCInfo) (tag : DepTag) (clcMap : ClassLoaderContextMap)
    (uld : UsesLibInfo) (lib : String)
    (hu : m.usesLibraryDep = some uld)
    (hl : clcSdkLibName m = some lib)
    (ht : IsLibDepTag tag = true ∨ isNonCompatUsesLibraryTag tag = true) :
    addCLCFromDep st m tag clcMap =
      (st, clcAddContext clcMap AnySdkVersion lib false uld.dexJarBuildPath
        uld.dexJarInstallPath uld.classLoaderContexts) := by
  rcases ht with ht | ht
  · simp [addCLCFromDep, hu, ht, addCLCTail, hl]
  · have hlib := isLibDepTag_false_of_usesLibrary tag ht
    simp [addCLCFromDep, hu, ht, hlib, addCLCTail, hl]

/-! ## C2: SDK-surface dependencies become new CLC nodes -/

/-- C2: for a direct dependency that is a shared SDK-surface library or
explicitly declares an SDK-surface identity, reached through a libs/sdklib
edge or a non-compatibility uses-library edge, `addCLCFromDep` adds exactly
one new node carrying the library name, the dependency's dex jar build path,
its dex jar install path and its published CLC as subtree, at the universal
any-version bucket — which is the bucket every edge in scope declares — and
leaves every other bucket unchanged. -/
theorem addCLCFromDep_sdk_adds_one_node (st : CtxState)
    (m : ModuleCLCInfo) (tag : DepTag) (clcMap : ClassLoaderContextMap)
    (uld : UsesLibInfo) (lib : String)
    (hu : m.usesLibraryDep = some uld)
    (hl : clcSdkLibName m = some lib)
    (ht : IsLibDepTag tag = true ∨ isNonCompatUsesLibraryTag tag = true)
    (hkeys : clcBucketsNodup clcMap) :
    (addCLCFromDep st m tag clcMap).1 = st ∧
    clcEntriesAt (addCLCFromDep st m tag clcMap).2 AnySdkVersion =
      clcEntriesAt clcMap AnySdkVersion ++
        [ContextEntry.mk lib uld.dexJarBuildPath uld.dexJarInstallPath
          uld.classLoaderContexts] ∧
    ∀ b, b ≠ AnySdkVersion →
      clcEntriesAt (addCLCFromDep st m tag clcMap).2 b = clcEntriesAt clcMap b := by
  have heq := addCLCFromDep_eq_addContext st m tag clcMap uld lib hu hl ht
  rw [heq]
  refine ⟨rfl, ?_, ?_⟩
  · rw [show (st, clcAddContext clcMap AnySdkVersion lib false uld.dexJarBuildPath
        uld.dexJarInstallPath uld.classLoaderContexts).2 =
      clcAppendAtBucket clcMap AnySdkVersion
        (ContextEntry.mk lib uld.dexJarBuildPath uld.dexJarInstallPath
          uld.classLoaderContexts) from rfl]
    rw [clcEntriesAt_appendAtBucket _ _ _ _ hkeys]
    simp
  · intro b hb
    rw [show (st, clcAddContext clcMap AnySdkVersion lib false uld.dexJarBuildPath
        uld.dexJarInstallPath uld.classLoaderContexts).2 =
      clcAppendAtBucket clcMap AnySdkVersion
        (ContextEntry.mk lib uld.dexJarBuildPath uld.dexJarInstallPath
          uld.classLoaderContexts) from rfl]
    rw [clcEntriesAt_appendAtBucket _ _ _ _ hkeys]
    simp [hb]

/-- C2 witness: a shared SDK library reached through a javalib edge becomes
one new node at the any-version bucket. -/
theorem addCLCFromDep_sdk_adds_one_node_witness :
    sampleSharedSdkModule.usesLibraryDep = some
      { dexJarBuildPath := some "out/soong/libS.jar"
        dexJarInstallPath := some "/system/framework/libS.jar"
        classLoaderContexts := [] } ∧
    clcSdkLibName sampleSharedSdkModule = some "libS" ∧
    clcEntriesAt (addCLCFromDep {} sampleSharedSdkModule libTag []).2 AnySdkVersion =
      [ContextEntry.mk "libS" (some "out/soong/libS.jar")
        (some "/system/framework/libS.jar") []] := by
  refine ⟨rfl, by decide, ?_⟩
  have h := addCLCFromDep_sdk_adds_one_node {} sampleSharedSdkModule libTag []
    { dexJarBuildPath := some "out/soong/libS.jar"
      dexJarInstallPath := some "/system/framework/libS.jar"
      classLoaderContexts := [] }
    "libS" rfl (by decide) (Or.inl (by decide)) (by simp [clcBucketsNodup])
  simpa [clcEntriesAt_nil] using h.2.1

/-! ## C3: static edges flatten, inert edges contribute nothing -/

/-- C3: a staticlib-tagged dependency that provides an SDK-surface identity
leaves the CLC map unchanged; a staticlib-tagged dependency without one has
its own CLC merged into the current map bucket by bucket without adding a
node; every tag other than javalib/sdklib, non-compatibility uses-library and
staticlib leaves the map unchanged. -/
theorem addCLCFromDep_static_merge_or_inert (st : CtxState)
    (m : ModuleCLCInfo) (tag : DepTag) (clcMap : ClassLoaderContextMap)
    (uld : UsesLibInfo) (lib : String) (hkeys : clcBucketsNodup clcMap) :
    (tag = staticLibTag → m.usesLibraryDep = some uld →
      clcSdkLibName m = some lib →
      addCLCFromDep st m tag clcMap = (st, clcMap)) ∧
    (tag = staticLibTag → m.usesLibraryDep = some uld →
      clcSdkLibName m = none →
      addCLCFromDep st m tag clcMap =
        (st, clcAddContextMap clcMap uld.classLoaderContexts (clcDepName m)) ∧
      ∀ b, clcEntriesAt (addCLCFromDep st m tag clcMap).2 b =
        clcEntriesAt clcMap b ++ clcEntriesAt uld.classLoaderContexts b) ∧
    (IsLibDepTag tag = false → isNonCompatUsesLibraryTag tag = false →
      tag ≠ staticLibTag →
      addCLCFromDep st m tag clcMap = (st, clcMap)) := by
  have hstatic_lib : IsLibDepTag staticLibTag = false := by decide
  have hstatic_nc : isNonCompatUsesLibraryTag staticLibTag = false := by decide
  refine ⟨?_, ?_, ?_⟩
  · intro htag hu hl
    subst htag
    simp [addCLCFromDep, hu, hstatic_lib, hstatic_nc, hl]
  · intro htag hu hl
    subst htag
    have heq : addCLCFromDep st m staticLibTag clcMap =
        (st, clcAddContextMap clcMap uld.classLoaderContexts (clcDepName m)) := by
      simp [addCLCFromDep, hu, hstatic_lib, hstatic_nc, hl, addCLCTail]
    refine ⟨heq, ?_⟩
    intro b
    rw [heq]
    exact (clcEntriesAt_addContextMap uld.classLoaderContexts clcMap
      (clcDepName m) b hkeys).1
  · intro hlib hnc hstat
    cases hum : m.usesLibraryDep with
    | none => simp [addCLCFromDep, hum]
    | some uld' => simp [addCLCFromDep, hum, hlib, hnc, hstat]

/-- C3 witness: a static component dependency's own uses-library obligation is
flattened into the parent map; a static edge to an SDK-surface component and a
plugin edge contribute nothing. -/
theorem addCLCFromDep_static_merge_or_inert_witness :
    clcSdkLibName sampleStaticModule = none ∧
    (addCLCFromDep {} sampleStaticModule staticLibTag []).2 =
      [(AnySdkVersion, [ContextEntry.mk "libT" none none []])] ∧
    addCLCFromDep {} sampleSharedSdkModule staticLibTag [] = ({}, []) ∧
    addCLCFromDep {} sampleSharedSdkModule pluginTag [] = ({}, []) := by
  have h1 := (addCLCFromDep_static_merge_or_inert {} sampleStaticModule
    staticLibTag []
    { dexJarBuildPath := some "out/soong/libC.jar"
      dexJarInstallPath := some "/system/framework/libC.jar"
      classLoaderContexts :=
        [(AnySdkVersion, [ContextEntry.mk "libT" none none []])] }
    "" (by simp [clcBucketsNodup])).2.1 rfl rfl (by decide)
  have h2 := (addCLCFromDep_static_merge_or_inert {} sampleSharedSdkModule
    staticLibTag []
    { dexJarBuildPath := some "out/soong/libS.jar"
      dexJarInstallPath := some "/system/framework/libS.jar"
      classLoaderContexts := [] }
    "libS" (by simp [clcBucketsNodup])).1 rfl rfl (by decide)
  have h3 := (addCLCFromDep_static_merge_or_inert {} sampleSharedSdkModule
    pluginTag []
    { dexJarBuildPath := some "out/soong/libS.jar"
      dexJarInstallPath := some "/system/framework/libS.jar"
      classLoaderContexts := [] }
    "libS" (by simp [clcBucketsNodup])).2.2 (by decide) (by decide) (by decide)
  refine ⟨by decide, ?_, h2, h3⟩
  rw [h1.1]
  rfl

/-! ## C4: a required uses-library with no dex jar is recorded, not failed -/

/-- C4: a required (non-optional, any-version) uses-library dependency that
publishes no dex jar build path is recorded in the CLC map as a node with an
absent jar path, and `addCLCFromDep` reports no module or classification
error while recording it. -/
theorem addCLCFromDep_missing_jar_recorded (st : CtxState)
    (m : ModuleCLCInfo) (clcMap : ClassLoaderContextMap)
    (uld : UsesLibInfo) (lib : String)
    (hu : m.usesLibraryDep = some uld)
    (hl : clcSdkLibName m = some lib)
    (hjar : uld.dexJarBuildPath = none)
    (hkeys : clcBucketsNodup clcMap) :
    (addCLCFromDep st m usesLibReqTag clcMap).1 = st ∧
    clcEntriesAt (addCLCFromDep st m usesLibReqTag clcMap).2 AnySdkVersion =
      clcEntriesAt clcMap AnySdkVersion ++
        [ContextEntry.mk lib none uld.dexJarInstallPath
          uld.classLoaderContexts] := by
  have ht : IsLibDepTag usesLibReqTag = true ∨
      isNonCompatUsesLibraryTag usesLibReqTag = true := by
    right
    decide
  have heq := addCLCFromDep_eq_addContext st m usesLibReqTag clcMap uld lib hu hl ht
  rw [heq]
  refine ⟨rfl, ?_⟩
  rw [show (st, clcAddContext clcMap AnySdkVersion lib false uld.dexJarBuildPath
      uld.dexJarInstallPath uld.classLoaderContexts).2 =
    clcAppendAtBucket clcMap AnySdkVersion
      (ContextEntry.mk lib uld.dexJarBuildPath uld.dexJarInstallPath
        uld.classLoaderContexts) from rfl]
  rw [hjar, clcEntriesAt_appendAtBucket _ _ _ _ hkeys]
  simp

/-- C4 witness: a required uses-library dependency with no dex jar is
recorded with an absent jar path and no error. -/
theorem addCLCFromDep_missing_jar_recorded_witness :
    sampleMissingJarModule.usesLibraryDep = some
      { dexJarBuildPath := none
        dexJarInstallPath := some "/system/framework/libU.jar"
        classLoaderContexts := [] } ∧
    (addCLCFromDep {} sampleMissingJarModule usesLibReqTag []).1 = ({} : CtxState) ∧
    clcEntriesAt (addCLCFromDep {} sampleMissingJarModule usesLibReqTag []).2
      AnySdkVersion =
      [ContextEntry.mk "libU" none (some "/system/framework/libU.jar") []] := by
  have h := addCLCFromDep_missing_jar_recorded {} sampleMissingJarModule []
    { dexJarBuildPath := none
      dexJarInstallPath := some "/system/framework/libU.jar"
      classLoaderContexts := [] }
    "libU" rfl (by decide) rfl (by simp [clcBucketsNodup])
  exact ⟨rfl, h.1, by simpa [clcEntriesAt_nil] using h.2⟩

/-! ## C5: proguard keep-rule export policy -/

/-- Unfolding of the collector for a single static dependency. -/
theorem collectProguardSpecInfo_single_static (own : List Path) (e : Bool)
    (i : ProguardSpecInfo) :
    (collectProguardSpecInfo own e [⟨staticLibTag, some i⟩]).ProguardFlagsFiles =
      own ++ (i.UnconditionallyExportedProguardFlags ++ i.ProguardFlagsFiles) := by
  simp [collectProguardSpecInfo]

/-- Unfolding of the collector for a single shared (libs) dependency. -/
theorem collectProguardSpecInfo_single_shared (own : List Path) (e : Bool)
    (i : ProguardSpecInfo) :
    (collectProguardSpecInfo own e [⟨libTag, some i⟩]).ProguardFlagsFiles =
      own ++ i.UnconditionallyExportedProguardFlags := by
  have : ¬(libTag = staticLibTag) := by decide
  simp [collectProguardSpecInfo, this]

/-- The unconditional subset a node publishes: its own files exactly when its
export flag is set, followed by its dependencies' unconditional subsets. -/
theorem collectProguardSpecInfo_uncond (own : List Path) (e : Bool)
    (deps : List ProguardDep) :
    (collectProguardSpecInfo own e deps).UnconditionallyExportedProguardFlags =
      (if e then own else []) ++
        (collectProguardSpecInfo own false deps).UnconditionallyExportedProguardFlags := by
  simp [collectProguardSpecInfo]

/-- C5: keep-rule files of a static dependency — including its full
transitive `ProguardFlagsFiles` closure — always reach the parent's exported
set regardless of the dependency's export flag; keep-rule files of a shared
(libs) dependency reach the parent iff the dependency set
`Export_proguard_flags_files`, and then only through the dependency's own
directly exported subset, never by recursing into its full transitive set. -/
theorem proguard_export_policy (aOwn sOwn : List Path) (aExp : Bool)
    (sDeps : List ProguardDep) (p : Path) (hp : p ∈ sOwn) :
    -- shared dep exporting: its own files are included in the parent's set
    (p ∈ (collectProguardSpecInfo aOwn aExp
        [⟨libTag, some (collectProguardSpecInfo sOwn true sDeps)⟩]).ProguardFlagsFiles) ∧
    -- shared dep not exporting: its own files are not included
    (p ∉ aOwn →
      p ∉ (collectProguardSpecInfo sOwn false
        sDeps).UnconditionallyExportedProguardFlags →
      p ∉ (collectProguardSpecInfo aOwn aExp
        [⟨libTag, some (collectProguardSpecInfo sOwn false sDeps)⟩]).ProguardFlagsFiles) ∧
    -- static dep: the dependency's full transitive set is included regardless
    -- of its export flag
    (∀ (b : Bool) (q : Path),
      q ∈ (collectProguardSpecInfo sOwn b sDeps).ProguardFlagsFiles →
      q ∈ (collectProguardSpecInfo aOwn aExp
        [⟨staticLibTag, some (collectProguardSpecInfo sOwn b sDeps)⟩]).ProguardFlagsFiles) := by
  refine ⟨?_, ?_, ?_⟩
  · rw [collectProguardSpecInfo_single_shared]
    rw [collectProguardSpecInfo_uncond]
    simp [hp]
  · intro haOwn huncond hmem
    rw [collectProguardSpecInfo_single_shared] at hmem
    rcases List.mem_append.mp hmem with h | h
    · exact haOwn h
    · exact huncond h
  · intro b q hq
    rw [collectProguardSpecInfo_single_static]
    simp [hq]

/-- C5 witness: with S owning `s.flags`, a libs edge includes it only when S
exports, while a static edge always includes S's transitive set. -/
theorem proguard_export_policy_witness :
    ("s.flags" : Path) ∈ ["s.flags"] ∧
    ("s.flags" : Path) ∈ (collectProguardSpecInfo ["a.flags"] false
      [⟨libTag, some (collectProguardSpecInfo ["s.flags"] true [])⟩]).ProguardFlagsFiles ∧
    ("s.flags" : Path) ∉ (collectProguardSpecInfo ["a.flags"] false
      [⟨libTag, some (collectProguardSpecInfo ["s.flags"] false [])⟩]).ProguardFlagsFiles ∧
    ("s.flags" : Path) ∈ (collectProguardSpecInfo ["a.flags"] false
      [⟨staticLibTag, some (collectProguardSpecInfo ["s.flags"] false [])⟩]).ProguardFlagsFiles := by
  have h := proguard_export_policy ["a.flags"] ["s.flags"] false [] "s.flags"
    (by decide)
  refine ⟨by decide, h.1, h.2.1 (by decide) (by decide), ?_⟩
  exact h.2.2 false "s.flags" (by decide)

/-! ## C9: deterministic evaluation under any topological schedule -/

/-- Under acyclicity, the fuel-bounded evaluation is stable for any fuel
above the node index. -/
theorem evalFuel_stable {N : Nat} (decl : Fin N → NodeDecl N)
    (hacyc : graphAcyclic decl) :
    ∀ (k : Nat) (n : Fin N), n.val ≤ k → ∀ f1 f2, n.val < f1 → n.val < f2 →
      evalFuel decl f1 n = evalFuel decl f2 n := by
  intro k
  induction k with
  | zero =>
    intro n hn f1 f2 h1 h2
    obtain ⟨a, rfl⟩ : ∃ a, f1 = a + 1 := ⟨f1 - 1, by omega⟩
    obtain ⟨b, rfl⟩ : ∃ b, f2 = b + 1 := ⟨f2 - 1, by omega⟩
    simp only [evalFuel]
    congr 1
    apply List.map_congr_left
    intro e he
    exact absurd (hacyc n e he) (by omega)
  | succ k ih =>
    intro n hn f1 f2 h1 h2
    obtain ⟨a, rfl⟩ : ∃ a, f1 = a + 1 := ⟨f1 - 1, by omega⟩
    obtain ⟨b, rfl⟩ : ∃ b, f2 = b + 1 := ⟨f2 - 1, by omega⟩
    simp only [evalFuel]
    congr 1
    apply List.map_congr_left
    intro e he
    have hlt := hacyc n e he
    rw [ih e.2 (by omega) a b (by omega) (by omega)]

/-- The canonical evaluation satisfies the expected one-step unfolding. -/
theorem evalNode_eq {N : Nat} (decl : Fin N → NodeDecl N)
    (hacyc : graphAcyclic decl) (n : Fin N) :
    evalNode decl n =
      nodeCompute (decl n)
        ((decl n).edges.map (fun e => (e.1, decl e.2, evalNode decl e.2))) := by
  have step : ∀ (f : Nat) (m : Fin N), evalFuel decl (f + 1) m =
      nodeCompute (decl m)
        ((decl m).edges.map (fun e => (e.1, decl e.2, evalFuel decl f e.2))) :=
    fun f m => rfl
  show evalFuel decl (n.val + 1) n = _
  rw [step]
  congr 1
  apply List.map_congr_left
  intro e he
  have hlt := hacyc n e he
  have hst : evalFuel decl n.val e.2 = evalFuel decl (e.2.val + 1) e.2 :=
    evalFuel_stable decl hacyc e.2.val e.2 le_rfl n.val (e.2.val + 1) hlt
      (by omega)
  rw [hst]
  rfl

/-- Invariant of scheduled evaluation: processing a topologically valid
remainder from a store that already holds the canonical outputs of the
processed nodes leaves every covered node at its canonical output. -/
theorem runSched_correct {N : Nat} (decl : Fin N → NodeDecl N)
    (hacyc : graphAcyclic decl) :
    ∀ (s done : List (Fin N)) (store : Fin N → Option NodeOutput),
      schedValidAux decl done s = true →
      (∀ m ∈ done, store m = some (evalNode decl m)) →
      ∀ n, (n ∈ done ∨ n ∈ s) →
        runSched decl s store n = some (evalNode decl n) := by
  intro s
  induction s with
  | nil =>
    intro done store _ hinv n hn
    rcases hn with hn | hn
    · exact hinv n hn
    · simp at hn
  | cons k rest ih =>
    intro done store hv hinv n hn
    simp only [schedValidAux, Bool.and_eq_true, List.all_eq_true] at hv
    obtain ⟨hdeps, hvrest⟩ := hv
    have hk : schedStep decl store k k = some (evalNode decl k) := by
      unfold schedStep
      rw [if_pos rfl, evalNode_eq decl hacyc k]
      have hmap : (decl k).edges.map
            (fun e => (e.1, decl e.2, (store e.2).getD default)) =
          (decl k).edges.map (fun e => (e.1, decl e.2, evalNode decl e.2)) := by
        apply List.map_congr_left
        intro e he
        have hmem : e.2 ∈ done := by
          have := hdeps e he
          simpa using this
        rw [hinv e.2 hmem]
        rfl
      rw [hmap]
    have hinv' : ∀ m ∈ k :: done,
        schedStep decl store k m = some (evalNode decl m) := by
      intro m hm
      by_cases hmk : m = k
      · subst hmk
        exact hk
      · rcases List.mem_cons.mp hm with rfl | hm
        · exact hk
        · rw [show schedStep decl store k m = store m from by
            simp [schedStep, hmk]]
          exact hinv m hm
    refine ih (k :: done) (schedStep decl store k) hvrest hinv' n ?_
    rcases hn with hn | hn
    · exact Or.inl (List.mem_cons_of_mem k hn)
    · rcases List.mem_cons.mp hn with rfl | hn
      · exact Or.inl (List.mem_cons_self n done)
      · exact Or.inr hn

/-- C9: evaluating the node pipeline (the embedded
`Import.GenerateAndroidBuildActions` dependency walk producing classpaths and
the CLC map) over an acyclic graph is deterministic: any two topologically
valid schedules — any interleaving of independent nodes the parallel engine
may produce — publish the same output for every node they cover. -/
theorem graph_eval_schedule_independent {N : Nat} (decl : Fin N → NodeDecl N)
    (hacyc : graphAcyclic decl) (s1 s2 : List (Fin N))
    (h1 : schedValid decl s1 = true) (h2 : schedValid decl s2 = true)
    (n : Fin N) (hn1 : n ∈ s1) (hn2 : n ∈ s2) :
    runSched decl s1 (fun _ => none) n = runSched decl s2 (fun _ => none) n := by
  rw [runSched_correct decl hacyc s1 [] (fun _ => none) h1 (by simp) n
      (Or.inr hn1),
    runSched_correct decl hacyc s2 [] (fun _ => none) h2 (by simp) n
      (Or.inr hn2)]

/-- C9 witness: on the three-node sample graph, the two orders in which the
independent nodes 0 and 1 may run produce the same published output for the
consuming node 2. -/
theorem graph_eval_schedule_independent_witness :
    schedValid sampleGraphDecl [0, 1, 2] = true ∧
    schedValid sampleGraphDecl [1, 0, 2] = true ∧
    runSched sampleGraphDecl [0, 1, 2] (fun _ => none) 2 =
      runSched sampleGraphDecl [1, 0, 2] (fun _ => none) 2 := by
  refine ⟨by decide, by decide, ?_⟩
  exact graph_eval_schedule_independent sampleGraphDecl (by decide)
    [0, 1, 2] [1, 0, 2] (by decide) (by decide) 2 (by decide) (by decide)

end Soong
